import Mathlib

set_option autoImplicit false

/-!
Shallow embedding of the openGemini-cli bulk import pipeline (import.go,
package main): the import FSM (`processLineProtocol`, `processCSV`), the
deferred write actions those functions return, the end-of-stream
`clearBuffer` flush, the driver loop of `ImportCommand.process`, and
`StringToInt64` (strconv.ParseInt with the error dropped).  External
collaborators — the textual write client, the structured (gRPC) write
client, the query client, the opengemini client-library request/record
builders and the line-protocol parser — are not part of the sources; they
are modelled from the spec as an `Env` of result-returning parameters.
-/

namespace GeminiImport

/-- strings.HasPrefix at the character level: does `s` start with `p`
(first argument is the pattern)? -/
def listStartsWith : List Char → List Char → Bool
  | [], _ => true
  | _ :: _, [] => false
  | p :: ps, c :: cs => p == c && listStartsWith ps cs

/-- strings.HasPrefix(s, p). -/
def goStartsWith (s p : String) : Bool := listStartsWith p.data s.data

/-- unicode.IsSpace, the cut set used by strings.TrimSpace. -/
def goIsSpace (c : Char) : Bool :=
  c == ' ' || c == '\t' || c == '\n' || c == Char.ofNat 11 || c == Char.ofNat 12 ||
  c == '\r' || c == Char.ofNat 0x85 || c == Char.ofNat 0xA0 || c == Char.ofNat 0x1680 ||
  (0x2000 ≤ c.toNat && c.toNat ≤ 0x200A) || c == Char.ofNat 0x2028 || c == Char.ofNat 0x2029 ||
  c == Char.ofNat 0x202F || c == Char.ofNat 0x205F || c == Char.ofNat 0x3000

/-- strings.TrimSpace. -/
def goTrimSpace (s : String) : String :=
  String.mk (((s.data.dropWhile goIsSpace).reverse.dropWhile goIsSpace).reverse)

/-- strings.Split(s, ":") at the character level: cut around every colon. -/
def splitColonAux : List Char → List Char → List (List Char)
  | [], acc => [acc.reverse]
  | c :: rest, acc =>
    if c == ':' then acc.reverse :: splitColonAux rest []
    else splitColonAux rest (c :: acc)

/-- strings.Split(s, ":"). -/
def goSplitColon (s : String) : List String := (splitColonAux s.data []).map String.mk

/-- Element `[1]` of a split result.  The source indexes unguarded, but every
call site first checks a prefix token that itself contains a colon, so at
least two segments exist there. -/
def elem1 : List String → String
  | _ :: x :: _ => x
  | _ => ""

/-- Go slice indexing `row[i]`.  Reachable call sites are in range because
the csv reader enforces the header's field count on every record. -/
def goIndex (row : List String) (i : Nat) : String := row.getD i ""

/-- The two error kinds of strconv: ErrSyntax and ErrRange. -/
inductive ParseIntErr
  | syn
  | range
deriving DecidableEq

/-- The digit loop of strconv.ParseUint(s, 10, 64): cutoff is
maxUint64/10 + 1; on a non-digit it returns 0 with ErrSyntax, on overflow
maxUint64 with ErrRange (later characters are then never inspected). -/
def goParseUint64 : List Char → Nat → Nat × Option ParseIntErr
  | [], n => (n, none)
  | c :: rest, n =>
    if c < '0' ∨ '9' < c then (0, some .syn)
    else if 1844674407370955162 ≤ n then (18446744073709551615, some .range)
    else
      let n1 := n * 10 + (c.toNat - 48)
      if 18446744073709551615 < n1 then (18446744073709551615, some .range)
      else goParseUint64 rest n1

/-- strconv.ParseUint(s, 10, 64): the empty string is a syntax error. -/
def goParseUint64Top (l : List Char) : Nat × Option ParseIntErr :=
  match l with
  | [] => (0, some .syn)
  | _ => goParseUint64 l 0

/-- strconv.ParseInt(s, 10, 64): strip one leading sign, parse unsigned,
then apply the int64 cutoff 2^63, saturating at the extremes with
ErrRange. -/
def goParseInt64 (s : String) : Int × Option ParseIntErr :=
  match s.data with
  | [] => (0, some .syn)
  | c :: rest =>
    match goParseUint64Top (if c == '+' || c == '-' then rest else c :: rest) with
    | (_, some .syn) => (0, some .syn)
    | (un, _) =>
      if c == '-' then
        if 9223372036854775808 < un then (-9223372036854775808, some .range)
        else (-(un : Int), none)
      else
        if 9223372036854775808 ≤ un then (9223372036854775807, some .range)
        else ((un : Int), none)

/-- StringToInt64 (import.go): strconv.ParseInt(s, 10, 64) with the error
discarded. -/
def StringToInt64 (s : String) : Int := (goParseInt64 s).1

/-! Data model of the FSM. -/

/-- ImportState: ImportStateDDL is the zero value. -/
inductive ImportState
  | DDL
  | DML
deriving DecidableEq

structure FieldPos where
  name : String
  pos : Nat
deriving DecidableEq

/-- opengemini.Point as used by the import: measurement, tags, fields
(CSV field values are strings), timestamp.  Go's maps are modelled as
association lists with replace-on-set semantics. -/
structure Point where
  measurement : String
  timestamp : Int
  tags : List (String × String)
  fields : List (String × String)
deriving DecidableEq

/-- Go map assignment m[k] = v: replace the entry if the key is present,
otherwise add it. -/
def mapSet {α : Type} : List (String × α) → String → α → List (String × α)
  | [], k, v => [(k, v)]
  | (k', v') :: rest, k, v =>
    if k' == k then (k, v) :: rest else (k', v') :: mapSet rest k v

/-- Go map read m[k] with zero value d for a missing key. -/
def mapGet {α : Type} : List (String × α) → String → α → α
  | [], _, d => d
  | (k', v') :: rest, k, d => if k' == k then v' else mapGet rest k d

/-- Go map membership test `_, ok := m[k]`. -/
def mapHasKey {α : Type} : List (String × α) → String → Bool
  | [], _ => false
  | (k', _) :: rest, k => k' == k || mapHasKey rest k

/-- ImportFileFSM with Go zero values as defaults. -/
structure ImportFileFSM where
  state : ImportState := .DDL
  database : String := ""
  retentionPolicy : String := ""
  measurement : String := ""
  tagMap : List (String × FieldPos) := []
  fieldMap : List (String × FieldPos) := []
  timeField : FieldPos := ⟨"", 0⟩
  batchLPBuffer : List String := []
  batchPointBuffer : List Point := []
deriving DecidableEq

/-- The subset of ImportConfig the core reads. -/
structure ImportConfig where
  database : String := ""
  retentionPolicy : String := ""
  measurement : String := ""
  username : String := ""
  password : String := ""
  precision : String := ""
  columnWrite : Bool := false
  batchSize : Int := 0
  tags : List String := []
  fields : List String := []
  timeField : String := "time"

def ImportTokenDDL : String := "# DDL"
def ImportTokenDML : String := "# DML"
def ImportTokenDatabase : String := "# CONTEXT-DATABASE:"
def ImportTokenRetentionPolicy : String := "# CONTEXT-RETENTION-POLICY:"

/-- The deferred FSMCall value returned to the driver, as a tagged action:
which closure the FSM handed back, with its captured data. -/
inductive FSMAction
  | empty
  | execDDL (cmd : String)
  | lpData (data : String)
  | csvHeader (row : List String)
  | csvData (row : List String)
deriving DecidableEq

/-- ImportFileFSM.processLineProtocol: the immediate state changes plus the
returned deferred call (the Go error result of this function is always
nil). -/
def processLineProtocol (fsm : ImportFileFSM) (data : String) :
    ImportFileFSM × FSMAction :=
  if goStartsWith data ImportTokenDDL then ({ fsm with state := .DDL }, .empty)
  else if goStartsWith data ImportTokenDML then
    ({ fsm with state := .DML, retentionPolicy := "autogen" }, .empty)
  else
    match fsm.state with
    | .DDL =>
      if goTrimSpace data = "" then (fsm, .empty)
      else (fsm, .execDDL (goTrimSpace data))
    | .DML =>
      if goStartsWith data ImportTokenDatabase then
        ({ fsm with database := goTrimSpace (elem1 (goSplitColon data)) }, .empty)
      else if goStartsWith data ImportTokenRetentionPolicy then
        ({ fsm with retentionPolicy := goTrimSpace (elem1 (goSplitColon data)) }, .empty)
      else if goStartsWith data "#" then (fsm, .empty)
      else if goTrimSpace data = "" then (fsm, .empty)
      else (fsm, .lpData (goTrimSpace data))

/-- ImportFileFSM.processCSV: the first non-empty record moves the state to
DML and yields the header-resolution closure; afterwards every record
yields the data closure. -/
def processCSV (fsm : ImportFileFSM) (row : List String) :
    ImportFileFSM × FSMAction :=
  if row.length = 0 then (fsm, .empty)
  else
    match fsm.state with
    | .DDL => ({ fsm with state := .DML }, .csvHeader row)
    | .DML => (fsm, .csvData row)

/-- One network interaction performed by a closure. -/
inductive NetCall
  | query (cmd : String)
  | httpWrite (db rp lines precision : String)
  | grpcWrite (db rp : String) (points : List Point)
deriving DecidableEq

/-- Modelled from the spec: the external collaborators of the import core
(§6 of the spec) — the query client, the textual write client, the
structured write client (transport error or integer response code), plus
the opengemini client-library constructors NewWriteRequestBuilder,
NewRecordBuilder, Build, and core.NewLineProtocolParser, none of which are
among the sources.  Each is represented by the result it hands back. -/
structure Env where
  queryErr : String → Option String
  httpWriteErr : String → String → String → String → Option String
  newBuilderErr : String → String → Option String
  newRecordBuilderErr : String → Option String
  buildReqErr : List Point → Option String
  grpcResp : String → String → List Point → Except String Int
  parseLines : String → Except String (List Point)

/-- Driver-side state threaded through a run: the FSM, the process-wide
builderEntities registry (keys only) and the log of network calls. -/
structure DriverState where
  fsm : ImportFileFSM := {}
  builders : List String := []
  calls : List NetCall := []
deriving DecidableEq

def initDriver : DriverState := {}

/-- errors.Join of two optional errors. -/
def goJoin : Option String → Option String → Option String
  | none, none => none
  | some a, none => some a
  | none, some b => some b
  | some a, some b => some (a ++ "\n" ++ b)

/-- fmt.Errorf("%w\n...", err, ...) as used in clearBuffer: %w of a nil
error renders as shown. -/
def goWrapMsg (e : Option String) (rest : String) : String :=
  (match e with
   | none => "%!w(<nil>)"
   | some s => s) ++ "\n" ++ rest

/-- The response-code switch, written identically at both mid-stream flush
sites of the source. -/
def responseSwitch (code : Int) : Option String :=
  if code = 0 then none
  else if code = 1 then
    some ("write failed, code: " ++ toString code ++ ", partial write failure")
  else if code = 2 then
    some ("write failed, code: " ++ toString code ++ ", write failure")
  else some ("unexpected response code: " ++ toString code)

/-- `builder, ok := builderEntities[name]; if !ok { create and register }`
with the correctly-guarded error check of the mid-stream flush paths. -/
def builderLookup (builders : List String) (env : Env) (db rp : String) :
    Except String (List String) :=
  if builders.contains (db ++ "." ++ rp) then .ok builders
  else
    match env.newBuilderErr db rp with
    | some e => .error e
    | none => .ok (builders ++ [db ++ "." ++ rp])

/-- The per-measurement record-builder loop: lazily create one record
builder per distinct measurement, returning the first creation error
(mid-stream flush paths check it correctly). -/
def createRecordBuilders (env : Env) : List Point → List String → Option String
  | [], _ => none
  | p :: rest, seen =>
    if seen.contains p.measurement then createRecordBuilders env rest seen
    else
      match env.newRecordBuilderErr p.measurement with
      | some e => some e
      | none => createRecordBuilders env rest (seen ++ [p.measurement])

/-- The closure returned for a line-protocol data line: guard on the
database, buffer below the batch threshold, otherwise flush the buffered
lines (the triggering line is in neither the flush nor the buffer).  The
buffer is cleared by a defer on every flush-path return. -/
def runLPData (env : Env) (cfg : ImportConfig) (st : DriverState) (data : String) :
    DriverState × Option String :=
  if st.fsm.database = "" then
    (st, some "database is required, make sure `# CONTEXT-DATABASE:` token is exist")
  else if (st.fsm.batchLPBuffer.length : Int) < cfg.batchSize then
    ({ st with fsm := { st.fsm with batchLPBuffer := st.fsm.batchLPBuffer ++ [data] } }, none)
  else
    let lines := String.intercalate "\n" st.fsm.batchLPBuffer
    let cleared := { st with fsm := { st.fsm with batchLPBuffer := [] } }
    if cfg.columnWrite then
      match builderLookup st.builders env st.fsm.database st.fsm.retentionPolicy with
      | .error e => (cleared, some e)
      | .ok bs =>
        match env.parseLines lines with
        | .error e => ({ cleared with builders := bs }, some e)
        | .ok points =>
          match createRecordBuilders env points [] with
          | some e => ({ cleared with builders := bs }, some e)
          | none =>
            match env.buildReqErr points with
            | some e => ({ cleared with builders := bs }, some e)
            | none =>
              let st2 :=
                { cleared with
                    builders := bs,
                    calls := st.calls ++ [NetCall.grpcWrite st.fsm.database st.fsm.retentionPolicy points] }
              match env.grpcResp st.fsm.database st.fsm.retentionPolicy points with
              | .error e => (st2, some e)
              | .ok code => (st2, responseSwitch code)
    else
      ({ cleared with
          calls := st.calls ++ [NetCall.httpWrite st.fsm.database st.fsm.retentionPolicy lines cfg.precision] },
        env.httpWriteErr st.fsm.database st.fsm.retentionPolicy lines cfg.precision)

/-- One header-scan step: tag set first, then field set, then the time
column; anything else is ignored. -/
def stepHeader (cfg : ImportConfig) (acc : ImportFileFSM) (idx : Nat) (datum : String) :
    ImportFileFSM :=
  if mapHasKey acc.tagMap datum then
    { acc with tagMap := mapSet acc.tagMap datum ⟨datum, idx⟩ }
  else if mapHasKey acc.fieldMap datum then
    { acc with fieldMap := mapSet acc.fieldMap datum ⟨datum, idx⟩ }
  else if cfg.timeField == datum then { acc with timeField := ⟨datum, idx⟩ }
  else acc

/-- `for idx, datum := range data` of the header closure. -/
def scanHeaderAux (cfg : ImportConfig) : ImportFileFSM → Nat → List String → ImportFileFSM
  | acc, _, [] => acc
  | acc, idx, datum :: rest => scanHeaderAux cfg (stepHeader cfg acc idx datum) (idx + 1) rest

/-- `for _, name := range names { m[name] = FieldPos{} }`. -/
def initPosMap : List String → List (String × FieldPos) → List (String × FieldPos)
  | [], m => m
  | n :: rest, m => initPosMap rest (mapSet m n ⟨"", 0⟩)

/-- The context copy and header scan performed by the header closure
before its completeness checks. -/
def headerScanFSM (cfg : ImportConfig) (fsm : ImportFileFSM) (row : List String) :
    ImportFileFSM :=
  scanHeaderAux cfg
    { fsm with
        database := cfg.database,
        retentionPolicy := cfg.retentionPolicy,
        measurement := cfg.measurement,
        tagMap := initPosMap cfg.tags [],
        fieldMap := initPosMap cfg.fields [] } 0 row

/-- The closure returned for the CSV header record (the field resolver):
copy the configured context into the FSM, initialise and fill the position
maps, then verify completeness — fields first, then tags, then the time
column.  The context mutations persist even when an error is returned. -/
def runCSVHeader (cfg : ImportConfig) (st : DriverState) (row : List String) :
    DriverState × Option String :=
  let fsm' := headerScanFSM cfg st.fsm row
  let e : Option String :=
    match cfg.fields.find? (fun f => (mapGet fsm'.fieldMap f ⟨"", 0⟩).name == "") with
    | some f => some ("field name not in csv header " ++ f)
    | none =>
      match cfg.tags.find? (fun t => (mapGet fsm'.tagMap t ⟨"", 0⟩).name == "") with
      | some t => some ("tag name not in csv header " ++ t)
      | none =>
        if fsm'.timeField.name == "" then
          some ("time field name not in csv header " ++ cfg.timeField)
        else none
  ({ st with fsm := fsm' }, e)

/-- `point.Tags[tag.Name] = data[tag.Pos]` over all entries of a position
map, producing a Go map. -/
def buildKV (m : List (String × FieldPos)) (row : List String) : List (String × String) :=
  m.foldl (fun acc kv => mapSet acc kv.2.name (goIndex row kv.2.pos)) []

/-- The structured flush of the CSV data closure: lazily obtain the request
builder, one record builder per measurement, build, submit, and classify
the response code.  The point buffer is cleared by a defer on every
return. -/
def flushPoints (env : Env) (cfg : ImportConfig) (st : DriverState) :
    DriverState × Option String :=
  let cleared := { st with fsm := { st.fsm with batchPointBuffer := [] } }
  match builderLookup st.builders env st.fsm.database st.fsm.retentionPolicy with
  | .error e => (cleared, some e)
  | .ok bs =>
    match createRecordBuilders env st.fsm.batchPointBuffer [] with
    | some e => ({ cleared with builders := bs }, some e)
    | none =>
      match env.buildReqErr st.fsm.batchPointBuffer with
      | some e => ({ cleared with builders := bs }, some e)
      | none =>
        let st2 :=
          { cleared with
              builders := bs,
              calls := st.calls ++ [NetCall.grpcWrite st.fsm.database st.fsm.retentionPolicy st.fsm.batchPointBuffer] }
        match env.grpcResp st.fsm.database st.fsm.retentionPolicy st.fsm.batchPointBuffer with
        | .error e => (st2, some e)
        | .ok code => (st2, responseSwitch code)

/-- The closure returned for a CSV data record: guard database,
default the retention policy, guard measurement and fields; while the
line-protocol buffer (sic — the source tests batchLPBuffer here) is below
the batch threshold, build a Point from the resolved positions and append
it; otherwise flush the point buffer, discarding the triggering record. -/
def runCSVData (env : Env) (cfg : ImportConfig) (st0 : DriverState) (row : List String) :
    DriverState × Option String :=
  if st0.fsm.database = "" then (st0, some "database is required")
  else
    let st := if st0.fsm.retentionPolicy = "" then
        { st0 with fsm := { st0.fsm with retentionPolicy := "autogen" } }
      else st0
    if cfg.measurement = "" then (st, some "measurement is required")
    else if cfg.fields.length = 0 ∨ st.fsm.fieldMap.length = 0 then
      (st, some "--fields is required or field name not in csv header")
    else if (st.fsm.batchLPBuffer.length : Int) < cfg.batchSize then
      let point : Point :=
        { measurement := cfg.measurement,
          timestamp := StringToInt64 (goIndex row st.fsm.timeField.pos),
          tags := buildKV st.fsm.tagMap row,
          fields := buildKV st.fsm.fieldMap row }
      ({ st with fsm := { st.fsm with batchPointBuffer := st.fsm.batchPointBuffer ++ [point] } }, none)
    else
      flushPoints env cfg st

/-- Dispatch of an FSMCall by the driver. -/
def runAction (env : Env) (cfg : ImportConfig) (st : DriverState) :
    FSMAction → DriverState × Option String
  | .empty => (st, none)
  | .execDDL cmd => ({ st with calls := st.calls ++ [NetCall.query cmd] }, env.queryErr cmd)
  | .lpData data => runLPData env cfg st data
  | .csvHeader row => runCSVHeader cfg st row
  | .csvData row => runCSVData env cfg st row

/-- Outcome of clearBuffer: a normal return, or a nil dereference the
source would hit after one of its mis-guarded error checks drops a failed
sub-operation. -/
inductive ClearResult
  | ok (st : DriverState) (err : Option String)
  | panics
deriving DecidableEq

/-- ImportFileFSM.clearBuffer, the forced end-of-stream flush.  Every
sub-operation error check in the source reads the accumulator `err`
(still nil) instead of the sub-operation's own error, so the joins never
fire: a failed textual write is dropped, and the structured sub-paths on
which the source would then dereference a nil builder, record builder or
response are reported as `panics`.  Each branch's defer clears its buffer
on every return. -/
def clearBuffer (env : Env) (cfg : ImportConfig) (st : DriverState) : ClearResult :=
  let err0 : Option String := none
  let lines := String.intercalate "\n" st.fsm.batchLPBuffer
  let writeErr := env.httpWriteErr st.fsm.database st.fsm.retentionPolicy lines cfg.precision
  let st1 :=
    if st.fsm.batchLPBuffer.length ≠ 0 then
      { st with
          fsm := { st.fsm with batchLPBuffer := [] },
          calls := st.calls ++ [NetCall.httpWrite st.fsm.database st.fsm.retentionPolicy lines cfg.precision] }
    else st
  let err1 :=
    if st.fsm.batchLPBuffer.length ≠ 0 then
      if err0.isSome then goJoin err0 writeErr else err0
    else err0
  if st1.fsm.batchPointBuffer.length ≠ 0 then
    let fsm1 := st1.fsm
    let cleared := { st1 with fsm := { fsm1 with batchPointBuffer := [] } }
    let bname := fsm1.database ++ "." ++ fsm1.retentionPolicy
    let createNew := !(st1.builders.contains bname)
    let buildRequestErr :=
      if createNew then env.newBuilderErr fsm1.database fsm1.retentionPolicy else none
    if createNew && err1.isSome then ClearResult.ok cleared (goJoin err1 buildRequestErr)
    else
      let bs := if createNew then st1.builders ++ [bname] else st1.builders
      match createRecordBuilders env fsm1.batchPointBuffer [] with
      | some e =>
        if err1.isSome then ClearResult.ok { cleared with builders := bs } (goJoin err1 (some e))
        else ClearResult.panics
      | none =>
        if createNew && buildRequestErr.isSome then ClearResult.panics
        else
          let buildErr := env.buildReqErr fsm1.batchPointBuffer
          if err1.isSome then ClearResult.ok { cleared with builders := bs } (goJoin err1 buildErr)
          else
            let st2 :=
              { cleared with
                  builders := bs,
                  calls := st1.calls ++ [NetCall.grpcWrite fsm1.database fsm1.retentionPolicy fsm1.batchPointBuffer] }
            match env.grpcResp fsm1.database fsm1.retentionPolicy fsm1.batchPointBuffer with
            | .error writeErr =>
              if err1.isSome then ClearResult.ok st2 (goJoin err1 (some writeErr))
              else ClearResult.panics
            | .ok code =>
              if code = 0 then ClearResult.ok st2 err1
              else if code = 1 then
                ClearResult.ok st2 (some (goWrapMsg err1 ("write failed, code: " ++ toString code ++ ", partial write failure")))
              else if code = 2 then
                ClearResult.ok st2 (some (goWrapMsg err1 ("write failed, code: " ++ toString code ++ ", write failure")))
              else
                ClearResult.ok st2 (some (goWrapMsg err1 ("unexpected response code: " ++ toString code)))
  else ClearResult.ok st1 err1

/-! The driver loop of ImportCommand.process: every per-unit error is
logged and the loop continues with the next unit; end-of-stream forces
clearBuffer. -/

structure StepsOut where
  st : DriverState
  logs : List String
  processed : Nat
deriving DecidableEq

structure RunOut where
  st : DriverState
  logs : List String
  processed : Nat
  final : ClearResult
deriving DecidableEq

def lpStep (env : Env) (cfg : ImportConfig) (st : DriverState) (line : String) :
    DriverState × Option String :=
  let p := processLineProtocol st.fsm line
  runAction env cfg { st with fsm := p.1 } p.2

def lpSteps (env : Env) (cfg : ImportConfig) : DriverState → List String → StepsOut
  | st, [] => ⟨st, [], 0⟩
  | st, line :: rest =>
    let p := lpStep env cfg st line
    let out := lpSteps env cfg p.1 rest
    ⟨out.st, p.2.toList ++ out.logs, out.processed + 1⟩

/-- The line-protocol branch of ImportCommand.process: scan all
newline-terminated units, then force a final flush. -/
def driverLPRun (env : Env) (cfg : ImportConfig) (lines : List String) : RunOut :=
  let out := lpSteps env cfg initDriver lines
  ⟨out.st, out.logs, out.processed, clearBuffer env cfg out.st⟩

def csvStep (env : Env) (cfg : ImportConfig) (st : DriverState) (row : List String) :
    DriverState × Option String :=
  let p := processCSV st.fsm row
  runAction env cfg { st with fsm := p.1 } p.2

/-- The CSV read loop: the first record fixes the expected field count
(csv.Reader.FieldsPerRecord); a record with a different count is a read
error — logged, skipped, loop continues. -/
def csvSteps (env : Env) (cfg : ImportConfig) :
    DriverState → Option Nat → List (List String) → StepsOut
  | st, _, [] => ⟨st, [], 0⟩
  | st, none, row :: rest =>
    let p := csvStep env cfg st row
    let out := csvSteps env cfg p.1 (some row.length) rest
    ⟨out.st, p.2.toList ++ out.logs, out.processed + 1⟩
  | st, some k, row :: rest =>
    if row.length = k then
      let p := csvStep env cfg st row
      let out := csvSteps env cfg p.1 (some k) rest
      ⟨out.st, p.2.toList ++ out.logs, out.processed + 1⟩
    else
      let out := csvSteps env cfg st (some k) rest
      ⟨out.st, "read csv line failed" :: out.logs, out.processed + 1⟩

/-- The CSV branch of ImportCommand.process. -/
def driverCSVRun (env : Env) (cfg : ImportConfig) (rows : List (List String)) : RunOut :=
  let out := csvSteps env cfg initDriver none rows
  ⟨out.st, out.logs, out.processed, clearBuffer env cfg out.st⟩

/-- A benign environment: every collaborator succeeds and structured
writes answer response code 0. -/
def envOK : Env where
  queryErr := fun _ => none
  httpWriteErr := fun _ _ _ _ => none
  newBuilderErr := fun _ _ => none
  newRecordBuilderErr := fun _ => none
  buildReqErr := fun _ => none
  grpcResp := fun _ _ _ => .ok 0
  parseLines := fun _ => .ok []

/-- An environment whose textual write fails. -/
def envC2 : Env := { envOK with httpWriteErr := fun _ _ _ _ => some "connection refused" }

/-- An environment whose structured write answers response code 1. -/
def envCode1 : Env := { envOK with grpcResp := fun _ _ _ => .ok 1 }

def cfgBase : ImportConfig := {}

def cfgC3 : ImportConfig := { batchSize := 2 }

def lpLinesC3 : List String :=
  ["# DML\n", "# CONTEXT-DATABASE: db\n", "a v=1 1\n", "b v=2 2\n"]

def cfgC4 : ImportConfig :=
  { database := "db", measurement := "m", fields := ["value"], timeField := "time", batchSize := 1 }

def rowsC4 : List (List String) := [["time", "value"], ["1", "a"], ["2", "b"]]

def cfgC1 : ImportConfig :=
  { database := "db", measurement := "m", tags := ["host2"], fields := ["value"],
    timeField := "time", batchSize := 5 }

def rowsC1 : List (List String) := [["time", "value"], ["100", "7"]]

def stC2 : DriverState :=
  { fsm := { state := .DML, database := "db", retentionPolicy := "rp", batchLPBuffer := ["m v=1 1"] } }

def stC3w : DriverState :=
  { fsm := { state := .DML, database := "db", batchLPBuffer := ["a v=1 1", "b v=2 2"] } }

def stC5w : DriverState :=
  { fsm := { state := .DML, database := "db", retentionPolicy := "rp", batchLPBuffer := ["x y=1 1"] } }

def cfgC5w : ImportConfig := { columnWrite := true, batchSize := 1 }

def stC7w : DriverState := { fsm := { state := .DML } }

def stC10 : DriverState :=
  { fsm := { state := .DML, database := "db", retentionPolicy := "rp",
             fieldMap := [("value", ⟨"value", 1⟩)], timeField := ⟨"time", 0⟩ } }

/-- The spec side of claim C6, written from its words: the text after the
first colon of the directive unit, trimmed of whitespace. -/
def specDirectiveValue (data : String) : String :=
  goTrimSpace (String.mk ((data.data.dropWhile (fun c => !(c == ':'))).drop 1))

/-- The characters of "# CONTEXT-DATABASE:" before its colon. -/
def dbTok0 : List Char :=
  ['#', ' ', 'C', 'O', 'N', 'T', 'E', 'X', 'T', '-', 'D', 'A', 'T', 'A', 'B', 'A', 'S', 'E']

/-- The characters of "# CONTEXT-RETENTION-POLICY:" before its colon. -/
def rpTok0 : List Char :=
  ['#', ' ', 'C', 'O', 'N', 'T', 'E', 'X', 'T', '-', 'R', 'E', 'T', 'E', 'N', 'T', 'I',
   'O', 'N', '-', 'P', 'O', 'L', 'I', 'C', 'Y']

def fsmDML : ImportFileFSM := { state := .DML }

/-- An error message produced by the header resolver, naming a missing
configured column. -/
def isHeaderMissErr (cfg : ImportConfig) (e : String) : Prop :=
  (∃ f ∈ cfg.fields, e = "field name not in csv header " ++ f) ∨
  (∃ t ∈ cfg.tags, e = "tag name not in csv header " ++ t) ∨
  e = "time field name not in csv header " ++ cfg.timeField

/-! Helper lemmas. -/

theorem lpSteps_processed (env : Env) (cfg : ImportConfig) :
    ∀ (st : DriverState) (lines : List String),
      (lpSteps env cfg st lines).processed = lines.length := by
  intro st lines
  induction lines generalizing st with
  | nil => rfl
  | cons l rest ih => simp [lpSteps, ih]

theorem csvSteps_processed (env : Env) (cfg : ImportConfig) :
    ∀ (st : DriverState) (k : Option Nat) (rows : List (List String)),
      (csvSteps env cfg st k rows).processed = rows.length := by
  intro st k rows
  induction rows generalizing st k with
  | nil => cases k <;> rfl
  | cons row rest ih =>
    cases k with
    | none => simp [csvSteps, ih]
    | some n =>
      by_cases h : row.length = n <;> simp [csvSteps, h, ih]

theorem createRecordBuilders_none (env : Env)
    (h : ∀ m, env.newRecordBuilderErr m = none) :
    ∀ (pts : List Point) (seen : List String), createRecordBuilders env pts seen = none := by
  intro pts
  induction pts with
  | nil => intro seen; rfl
  | cons p rest ih =>
    intro seen
    unfold createRecordBuilders
    by_cases hc : seen.contains p.measurement
    · rw [if_pos hc]; exact ih seen
    · rw [if_neg hc, h p.measurement]; exact ih (seen ++ [p.measurement])

theorem listStartsWith_iff (p : List Char) :
    ∀ s, listStartsWith p s = true ↔ ∃ t, s = p ++ t := by
  induction p with
  | nil =>
    intro s
    constructor
    · intro _; exact ⟨s, rfl⟩
    · intro _; rfl
  | cons a ps ih =>
    intro s
    cases s with
    | nil =>
      constructor
      · intro h; simp [listStartsWith] at h
      · rintro ⟨t, ht⟩; simp at ht
    | cons c cs =>
      constructor
      · intro h
        have h1 : (a == c) = true ∧ listStartsWith ps cs = true := by
          simpa [listStartsWith, Bool.and_eq_true] using h
        obtain ⟨t, rfl⟩ := (ih cs).mp h1.2
        have hac : a = c := by simpa [beq_iff_eq] using h1.1
        subst hac
        exact ⟨t, rfl⟩
      · rintro ⟨t, ht⟩
        have h1 : c = a := by injection ht
        have h2 : cs = ps ++ t := by injection ht
        subst h1; subst h2
        have hrec : listStartsWith ps (ps ++ t) = true := (ih (ps ++ t)).mpr ⟨t, rfl⟩
        simp [listStartsWith, hrec]

theorem dataDDL : ImportTokenDDL.data = ['#', ' ', 'D', 'D', 'L'] := rfl

theorem dataDML : ImportTokenDML.data = ['#', ' ', 'D', 'M', 'L'] := rfl

theorem startsWithDML_not_DDL (data : String)
    (h : goStartsWith data ImportTokenDML = true) :
    goStartsWith data ImportTokenDDL = false := by
  unfold goStartsWith at h ⊢
  rw [dataDML] at h
  obtain ⟨t, ht⟩ := (listStartsWith_iff _ _).mp h
  rw [dataDDL, ht]
  rfl

/-! Claim theorems. -/

/-- C2: at the final flush, a failing textual write is silently dropped:
the buffered line is joined and submitted, the collaborator reports
"connection refused", yet clearBuffer returns no error, because the
source's accumulation guard tests the still-nil accumulator instead of
the fresh write error.  This contradicts the claim that every
sub-failure is joined into the returned error. -/
theorem C2_clear_drops_write_error :
    clearBuffer envC2 cfgBase stC2 =
      ClearResult.ok
        { fsm := { state := .DML, database := "db", retentionPolicy := "rp" },
          builders := [],
          calls := [NetCall.httpWrite "db" "rp" "m v=1 1" ""] }
        none ∧
    envC2.httpWriteErr "db" "rp" "m v=1 1" "" = some "connection refused" :=
  ⟨by decide, rfl⟩

/-- C3 counterexample: with BatchSize = 2, after the second (that is, the
BatchSize-th) data line has been appended, the buffer holds both lines
and no flush action has run (no network call at all), so appending the
BatchSize-th item did not trigger a flush. -/
theorem C3_counterexample :
    (lpSteps envOK cfgC3 initDriver lpLinesC3).st.fsm.batchLPBuffer =
      ["a v=1 1", "b v=2 2"] ∧
    (lpSteps envOK cfgC3 initDriver lpLinesC3).st.calls = [] := by decide

/-- C3 amended: a data unit arriving while fewer than BatchSize items are
buffered (the BatchSize-th append included) is appended with no flush;
the flush is triggered by the next data unit, which arrives with
BatchSize items buffered: exactly one write call is made carrying the
joined buffered items, the buffer is cleared, and the triggering unit is
discarded (textual path shown). -/
theorem C3_amended (env : Env) (cfg : ImportConfig) (st : DriverState) (data : String)
    (hdb : ¬ st.fsm.database = "") :
    ((st.fsm.batchLPBuffer.length : Int) < cfg.batchSize →
      runAction env cfg st (.lpData data) =
        ({ st with fsm := { st.fsm with batchLPBuffer := st.fsm.batchLPBuffer ++ [data] } },
          none)) ∧
    (cfg.columnWrite = false →
      ¬ (st.fsm.batchLPBuffer.length : Int) < cfg.batchSize →
      runAction env cfg st (.lpData data) =
        ({ st with
            fsm := { st.fsm with batchLPBuffer := [] },
            calls := st.calls ++ [NetCall.httpWrite st.fsm.database st.fsm.retentionPolicy
              (String.intercalate "\n" st.fsm.batchLPBuffer) cfg.precision] },
          env.httpWriteErr st.fsm.database st.fsm.retentionPolicy
            (String.intercalate "\n" st.fsm.batchLPBuffer) cfg.precision)) := by
  constructor
  · intro hlt
    simp [runAction, runLPData, hdb, hlt]
  · intro hcw hge
    simp [runAction, runLPData, hdb, hge, hcw]

theorem C3_amended_witness :
    runAction envOK cfgC3 stC3w (.lpData "c v=3 3") =
      ({ stC3w with
          fsm := { stC3w.fsm with batchLPBuffer := [] },
          calls := [NetCall.httpWrite "db" "" "a v=1 1\nb v=2 2" ""] }, none) := by
  have h := (C3_amended envOK cfgC3 stC3w "c v=3 3" (by decide)).2 rfl (by decide)
  exact h.trans (by decide)

/-- C4 counterexample: in a CSV run with BatchSize = 1, the second data
row arrives while the point buffer already holds one (= BatchSize)
point, yet it triggers no flush and is not discarded: it is appended,
leaving two buffered points and zero network calls, because the
threshold check reads the line-protocol buffer. -/
theorem C4_counterexample :
    (csvSteps envOK cfgC4 initDriver none rowsC4).st.fsm.batchPointBuffer.length = 2 ∧
    (csvSteps envOK cfgC4 initDriver none rowsC4).st.calls = [] := by decide

/-- C4 amended: in the CSV path the threshold check inspects the
line-protocol buffer, which stays empty in a CSV run, so an arriving row
is appended to the point buffer with no flush even when the point buffer
already holds BatchSize or more points; in the line-protocol path the
claim holds: the triggered flush carries exactly the previously buffered
lines and the triggering line is discarded (neither flushed nor
buffered). -/
theorem C4_amended (env : Env) (cfg : ImportConfig) (st : DriverState)
    (row : List String) (data : String) :
    (st.fsm.database ≠ "" → st.fsm.retentionPolicy ≠ "" → cfg.measurement ≠ "" →
      ¬ (cfg.fields.length = 0 ∨ st.fsm.fieldMap.length = 0) →
      st.fsm.batchLPBuffer = [] → (0 : Int) < cfg.batchSize →
      runAction env cfg st (.csvData row) =
        ({ st with fsm := { st.fsm with batchPointBuffer := st.fsm.batchPointBuffer ++
            [{ measurement := cfg.measurement,
               timestamp := StringToInt64 (goIndex row st.fsm.timeField.pos),
               tags := buildKV st.fsm.tagMap row,
               fields := buildKV st.fsm.fieldMap row }] } }, none)) ∧
    (st.fsm.database ≠ "" → cfg.columnWrite = false →
      ¬ (st.fsm.batchLPBuffer.length : Int) < cfg.batchSize →
      (runAction env cfg st (.lpData data)).1.fsm.batchLPBuffer = [] ∧
      (runAction env cfg st (.lpData data)).1.calls =
        st.calls ++ [NetCall.httpWrite st.fsm.database st.fsm.retentionPolicy
          (String.intercalate "\n" st.fsm.batchLPBuffer) cfg.precision]) := by
  constructor
  · intro hdb hrp hm hf hbuf hbs
    have hlt : (st.fsm.batchLPBuffer.length : Int) < cfg.batchSize := by
      rw [hbuf]; simpa using hbs
    have hf1 : cfg.fields ≠ [] := fun hh => hf (Or.inl (by simp [hh]))
    have hf2 : st.fsm.fieldMap ≠ [] := fun hh => hf (Or.inr (by simp [hh]))
    simp [runAction, runCSVData, hdb, hrp, hm, hf1, hf2, hlt]
  · intro hdb hcw hge
    simp [runAction, runLPData, hdb, hge, hcw]

theorem C4_amended_witness :
    runAction envOK cfgC4 stC10 (.csvData ["7", "v"]) =
      ({ stC10 with fsm := { stC10.fsm with batchPointBuffer :=
          [{ measurement := "m", timestamp := 7, tags := [], fields := [("value", "v")] }] } },
        none) := by
  have h := (C4_amended envOK cfgC4 stC10 ["7", "v"] "").1
    (by decide) (by decide) (by decide) (by decide) rfl (by decide)
  exact h.trans (by decide)

/-- C7: a data-row action that runs while the Context's database is empty
returns an error for that row, writes nothing and changes nothing (both
the line-protocol and the CSV closure), and the driver loop always
continues with the next unit. -/
theorem C7_empty_database (env : Env) (cfg : ImportConfig) (st : DriverState)
    (data : String) (row : List String) (h : st.fsm.database = "") :
    runAction env cfg st (.lpData data) =
      (st, some "database is required, make sure `# CONTEXT-DATABASE:` token is exist") ∧
    runAction env cfg st (.csvData row) = (st, some "database is required") ∧
    (∀ lines, (lpSteps env cfg st lines).processed = lines.length) ∧
    (∀ k rows, (csvSteps env cfg st k rows).processed = rows.length) := by
  refine ⟨?_, ?_, fun lines => lpSteps_processed env cfg st lines,
    fun k rows => csvSteps_processed env cfg st k rows⟩
  · simp [runAction, runLPData, h]
  · simp [runAction, runCSVData, h]

theorem C7_empty_database_witness :
    runAction envOK cfgC3 stC7w (.lpData "x v=1 1") =
      (stC7w, some "database is required, make sure `# CONTEXT-DATABASE:` token is exist") ∧
    runAction envOK cfgC3 stC7w (.csvData ["1", "2"]) = (stC7w, some "database is required") :=
  ⟨(C7_empty_database envOK cfgC3 stC7w "x v=1 1" ["1", "2"] rfl).1,
   (C7_empty_database envOK cfgC3 stC7w "x v=1 1" ["1", "2"] rfl).2.1⟩

/-- C8: whatever the prior state, a unit beginning with "# DDL" moves the
FSM to the Schema state and nothing else changes; a unit beginning with
"# DML" moves it to the Data state and resets the retention policy to
"autogen"; both return the empty action, which performs no write. -/
theorem C8_marker_transitions (fsm : ImportFileFSM) (data : String)
    (env : Env) (cfg : ImportConfig) (st : DriverState) :
    (goStartsWith data ImportTokenDDL = true →
      processLineProtocol fsm data = ({ fsm with state := .DDL }, .empty)) ∧
    (goStartsWith data ImportTokenDML = true →
      processLineProtocol fsm data =
        ({ fsm with state := .DML, retentionPolicy := "autogen" }, .empty)) ∧
    runAction env cfg st .empty = (st, none) := by
  refine ⟨?_, ?_, rfl⟩
  · intro h
    simp [processLineProtocol, h]
  · intro h
    have hd := startsWithDML_not_DDL data h
    simp [processLineProtocol, h, hd]

theorem C8_marker_transitions_witness :
    processLineProtocol { state := .DML, database := "db" } "# DDL\n" =
      ({ state := .DDL, database := "db" }, .empty) ∧
    processLineProtocol {} "# DML\n" =
      ({ state := .DML, retentionPolicy := "autogen" }, .empty) := by
  constructor
  · exact ((C8_marker_transitions { state := .DML, database := "db" } "# DDL\n"
      envOK cfgBase initDriver).1 (by decide)).trans (by decide)
  · exact ((C8_marker_transitions {} "# DML\n"
      envOK cfgBase initDriver).2.1 (by decide)).trans (by decide)

/-- C5: when a full line-protocol buffer is flushed over the structured
path and every sub-operation succeeds up to the response, the integer
response code is classified as: 0 no error; 1 an error naming a partial
write failure; 2 an error naming a write failure; anything else an
unexpected-response error.  The buffer is drained regardless of the
outcome, and the driver loop processes every subsequent unit, so no
non-zero outcome halts later batches. -/
theorem C5_response_classification (env : Env) (cfg : ImportConfig) (st : DriverState)
    (data : String) (pts : List Point) (code : Int)
    (hcw : cfg.columnWrite = true)
    (hdb : ¬ st.fsm.database = "")
    (hfull : ¬ (st.fsm.batchLPBuffer.length : Int) < cfg.batchSize)
    (hb : env.newBuilderErr st.fsm.database st.fsm.retentionPolicy = none)
    (hp : env.parseLines (String.intercalate "\n" st.fsm.batchLPBuffer) = .ok pts)
    (hrb : ∀ m, env.newRecordBuilderErr m = none)
    (hbr : env.buildReqErr pts = none)
    (hg : env.grpcResp st.fsm.database st.fsm.retentionPolicy pts = .ok code) :
    ((runAction env cfg st (.lpData data)).1.fsm.batchLPBuffer = [] ∧
      (runAction env cfg st (.lpData data)).2 = responseSwitch code) ∧
    (code = 0 → responseSwitch code = none) ∧
    (code = 1 → responseSwitch code = some "write failed, code: 1, partial write failure") ∧
    (code = 2 → responseSwitch code = some "write failed, code: 2, write failure") ∧
    (¬ code = 0 → ¬ code = 1 → ¬ code = 2 →
      responseSwitch code = some ("unexpected response code: " ++ toString code)) ∧
    (∀ more, (lpSteps env cfg (runAction env cfg st (.lpData data)).1 more).processed =
      more.length) := by
  have hrec := createRecordBuilders_none env hrb pts []
  have hbl : builderLookup st.builders env st.fsm.database st.fsm.retentionPolicy =
      .ok (if st.builders.contains (st.fsm.database ++ "." ++ st.fsm.retentionPolicy) then
            st.builders
          else st.builders ++ [st.fsm.database ++ "." ++ st.fsm.retentionPolicy]) := by
    unfold builderLookup
    by_cases hmem : st.builders.contains (st.fsm.database ++ "." ++ st.fsm.retentionPolicy)
    · simp only [if_pos hmem]
    · simp only [if_neg hmem, hb]
  have hmain : runAction env cfg st (.lpData data) =
      ({ st with
          fsm := { st.fsm with batchLPBuffer := [] },
          builders :=
            if st.builders.contains (st.fsm.database ++ "." ++ st.fsm.retentionPolicy) then
              st.builders
            else st.builders ++ [st.fsm.database ++ "." ++ st.fsm.retentionPolicy],
          calls := st.calls ++
            [NetCall.grpcWrite st.fsm.database st.fsm.retentionPolicy pts] },
        responseSwitch code) := by
    simp [runAction, runLPData, hdb, hfull, hcw, hbl, hp, hrec, hbr, hg]
  refine ⟨⟨by simp [hmain], by simp [hmain]⟩, ?_, ?_, ?_, ?_,
    fun more => lpSteps_processed env cfg _ more⟩
  · intro h0; subst h0; rfl
  · intro h1; subst h1; rfl
  · intro h2; subst h2; rfl
  · intro h0 h1 h2
    simp [responseSwitch, h0, h1, h2]

theorem C5_response_classification_witness :
    (runAction envCode1 cfgC5w stC5w (.lpData "z w=2 2")).2 =
      some "write failed, code: 1, partial write failure" ∧
    (runAction envCode1 cfgC5w stC5w (.lpData "z w=2 2")).1.fsm.batchLPBuffer = [] := by
  have h := C5_response_classification envCode1 cfgC5w stC5w "z w=2 2" [] 1
    rfl (by decide) (by decide) rfl rfl (fun _ => rfl) rfl rfl
  exact ⟨h.1.2.trans (h.2.2.1 rfl), h.1.1⟩

/-- goParseInt64 only ever produces: 0 with a syntax error, a saturated
bound with a range error, or some value with no error. -/
theorem goParseInt64_cases (s : String) :
    goParseInt64 s = (0, some ParseIntErr.syn) ∨
    goParseInt64 s = (9223372036854775807, some ParseIntErr.range) ∨
    goParseInt64 s = (-9223372036854775808, some ParseIntErr.range) ∨
    ∃ v : Int, goParseInt64 s = (v, none) := by
  rcases hd : s.data with _ | ⟨c, rest⟩
  · left
    unfold goParseInt64
    rw [hd]
  · rcases hpu : goParseUint64Top (if c == '+' || c == '-' then rest else c :: rest)
      with ⟨un, e⟩
    have hbody : goParseInt64 s =
        (match goParseUint64Top (if c == '+' || c == '-' then rest else c :: rest) with
          | (_, some ParseIntErr.syn) => ((0 : Int), some ParseIntErr.syn)
          | (un, _) =>
            if c == '-' then
              if 9223372036854775808 < un then
                ((-9223372036854775808 : Int), some ParseIntErr.range)
              else (-(un : Int), none)
            else
              if 9223372036854775808 ≤ un then
                ((9223372036854775807 : Int), some ParseIntErr.range)
              else ((un : Int), none)) := by
      unfold goParseInt64
      rw [hd]
    rw [hpu] at hbody
    rcases e with _ | pe
    · by_cases hneg : (c == '-') = true
      · by_cases hlt : 9223372036854775808 < un
        · right; right; left; simp [hbody, hneg, hlt]
        · right; right; right; exact ⟨-(un : Int), by simp [hbody, hneg, hlt]⟩
      · by_cases hle : 9223372036854775808 ≤ un
        · right; left; simp [hbody, hneg, hle]
        · right; right; right; exact ⟨(un : Int), by simp [hbody, hneg, hle]⟩
    · cases pe with
      | syn => left; simp [hbody]
      | range =>
        by_cases hneg : (c == '-') = true
        · by_cases hlt : 9223372036854775808 < un
          · right; right; left; simp [hbody, hneg, hlt]
          · right; right; right; exact ⟨-(un : Int), by simp [hbody, hneg, hlt]⟩
        · by_cases hle : 9223372036854775808 ≤ un
          · right; left; simp [hbody, hneg, hle]
          · right; right; right; exact ⟨(un : Int), by simp [hbody, hneg, hle]⟩

/-- C10 counterexample: a CSV time value that is a syntactically valid
integer but does not fit in 64 bits ("9223372036854775808" = 2^63) does
not give timestamp 0: StringToInt64 saturates at 9223372036854775807,
the row is buffered with that timestamp, and no error is reported. -/
theorem C10_counterexample :
    StringToInt64 "9223372036854775808" = 9223372036854775807 ∧
    (goParseInt64 "9223372036854775808").2 = some ParseIntErr.range ∧
    (runAction envOK cfgC4 stC10 (.csvData ["9223372036854775808", "x"])).1.fsm.batchPointBuffer =
      [{ measurement := "m", timestamp := 9223372036854775807, tags := [],
         fields := [("value", "x")] }] ∧
    (runAction envOK cfgC4 stC10 (.csvData ["9223372036854775808", "x"])).2 = none := by
  decide

/-- C10 amended: a time value the parser rejects for syntax yields
timestamp 0; one rejected for range yields the saturated bound
(9223372036854775807 or -9223372036854775808); in every case the parse
error is discarded: the row's closure reports no error and the row is
buffered with exactly that timestamp. -/
theorem C10_amended :
    (∀ s : String, (goParseInt64 s).2 = some ParseIntErr.syn → StringToInt64 s = 0) ∧
    (∀ s : String, (goParseInt64 s).2 = some ParseIntErr.range →
      StringToInt64 s = 9223372036854775807 ∨ StringToInt64 s = -9223372036854775808) ∧
    (∀ (env : Env) (cfg : ImportConfig) (st : DriverState) (row : List String),
      st.fsm.database ≠ "" → st.fsm.retentionPolicy ≠ "" → cfg.measurement ≠ "" →
      ¬ (cfg.fields.length = 0 ∨ st.fsm.fieldMap.length = 0) →
      st.fsm.batchLPBuffer = [] → (0 : Int) < cfg.batchSize →
      (runAction env cfg st (.csvData row)).1.fsm.batchPointBuffer.map Point.timestamp =
        st.fsm.batchPointBuffer.map Point.timestamp ++
          [StringToInt64 (goIndex row st.fsm.timeField.pos)] ∧
      (runAction env cfg st (.csvData row)).2 = none) := by
  refine ⟨?_, ?_, ?_⟩
  · intro s h
    rcases goParseInt64_cases s with hc | hc | hc | ⟨v, hc⟩
    · simp [StringToInt64, hc]
    · rw [hc] at h; exact absurd h (by decide)
    · rw [hc] at h; exact absurd h (by decide)
    · rw [hc] at h; exact absurd h (by simp)
  · intro s h
    rcases goParseInt64_cases s with hc | hc | hc | ⟨v, hc⟩
    · rw [hc] at h; exact absurd h (by decide)
    · exact Or.inl (by simp [StringToInt64, hc])
    · exact Or.inr (by simp [StringToInt64, hc])
    · rw [hc] at h; exact absurd h (by simp)
  · intro env cfg st row hdb hrp hm hf hbuf hbs
    have hlt : (st.fsm.batchLPBuffer.length : Int) < cfg.batchSize := by
      rw [hbuf]; simpa using hbs
    have hf1 : cfg.fields ≠ [] := fun hh => hf (Or.inl (by simp [hh]))
    have hf2 : st.fsm.fieldMap ≠ [] := fun hh => hf (Or.inr (by simp [hh]))
    constructor
    · simp [runAction, runCSVData, hdb, hrp, hm, hf1, hf2, hlt]
    · simp [runAction, runCSVData, hdb, hrp, hm, hf1, hf2, hlt]

theorem C10_amended_witness :
    StringToInt64 "12x" = 0 ∧
    (StringToInt64 "99999999999999999999" = 9223372036854775807 ∨
      StringToInt64 "99999999999999999999" = -9223372036854775808) :=
  ⟨C10_amended.1 "12x" (by decide), C10_amended.2.1 "99999999999999999999" (by decide)⟩

/-! Lemmas on colon splitting, for the directive-value claims. -/

theorem splitColonAux_append (l₂ : List Char) :
    ∀ (l₁ acc : List Char), ':' ∉ l₁ →
      splitColonAux (l₁ ++ ':' :: l₂) acc = (acc.reverse ++ l₁) :: splitColonAux l₂ [] := by
  intro l₁
  induction l₁ with
  | nil =>
    intro acc h
    simp [splitColonAux]
  | cons c cs ih =>
    intro acc h
    have hc : ¬ (c == ':') = true := by
      simp only [beq_iff_eq]
      intro hh
      exact h (List.mem_cons.mpr (Or.inl hh.symm))
    have hcs : ':' ∉ cs := fun hm => h (List.mem_cons.mpr (Or.inr hm))
    calc splitColonAux ((c :: cs) ++ ':' :: l₂) acc
        = splitColonAux (cs ++ ':' :: l₂) (c :: acc) := by
          simp only [List.cons_append, splitColonAux, if_neg hc]
          rfl
      _ = ((c :: acc).reverse ++ cs) :: splitColonAux l₂ [] := ih (c :: acc) hcs
      _ = (acc.reverse ++ c :: cs) :: splitColonAux l₂ [] := by
          simp [List.reverse_cons, List.append_assoc]

theorem splitColonAux_head (l : List Char) :
    ∀ acc, ∃ tl, splitColonAux l acc =
      (acc.reverse ++ l.takeWhile (fun c => !(c == ':'))) :: tl := by
  induction l with
  | nil => intro acc; exact ⟨[], by simp [splitColonAux]⟩
  | cons c cs ih =>
    intro acc
    by_cases hc : (c == ':') = true
    · refine ⟨splitColonAux cs [], ?_⟩
      simp [splitColonAux, hc, List.takeWhile_cons]
    · obtain ⟨tl, htl⟩ := ih (c :: acc)
      refine ⟨tl, ?_⟩
      simp only [splitColonAux, if_neg hc]
      rw [htl]
      simp [List.takeWhile_cons, hc, List.reverse_cons, List.append_assoc]

theorem elem1_goSplitColon (tok0 rest : List Char) (h : ':' ∉ tok0) :
    elem1 (goSplitColon (String.mk (tok0 ++ ':' :: rest))) =
      String.mk (rest.takeWhile (fun c => !(c == ':'))) := by
  unfold goSplitColon
  rw [show (String.mk (tok0 ++ ':' :: rest)).data = tok0 ++ ':' :: rest from rfl]
  rw [splitColonAux_append rest tok0 [] h]
  obtain ⟨tl, htl⟩ := splitColonAux_head rest []
  rw [htl]
  simp [elem1]

theorem listStartsWith_refl_append (p t : List Char) :
    listStartsWith p (p ++ t) = true :=
  (listStartsWith_iff p (p ++ t)).mpr ⟨t, rfl⟩

theorem startsWithHash_of_token (data tok : String) (t₂ : List Char)
    (htok : tok.data = '#' :: t₂) (h : goStartsWith data tok = true) :
    goStartsWith data "#" = true := by
  unfold goStartsWith at h ⊢
  obtain ⟨t, ht⟩ := (listStartsWith_iff _ _).mp h
  rw [ht, htok]
  exact listStartsWith_refl_append ['#'] (t₂ ++ t)

/-- C6 counterexample: in the Data state, the directive
"# CONTEXT-DATABASE: a:b" sets the database to "a" (the text between the
first and second colon), while the claim's reading — the text after the
first colon, trimmed — is "a:b". -/
theorem C6_counterexample :
    (processLineProtocol fsmDML "# CONTEXT-DATABASE: a:b\n").1.database = "a" ∧
    specDirectiveValue "# CONTEXT-DATABASE: a:b\n" = "a:b" ∧
    ("a" : String) ≠ "a:b" := by decide

/-- C6 amended: in the Data state, a `# CONTEXT-DATABASE:` or
`# CONTEXT-RETENTION-POLICY:` unit updates the corresponding Context
field to the text strictly between the token's colon and the next colon
(element 1 of splitting on every colon), trimmed of whitespace, with no
other effect; any other `#`-prefixed unit and any blank unit is a no-op;
every remaining unit becomes a data payload carrying its trimmed text. -/
theorem C6_amended :
    (∀ (fsm : ImportFileFSM) (rest : List Char), fsm.state = .DML →
      processLineProtocol fsm (ImportTokenDatabase ++ String.mk rest) =
        ({ fsm with database :=
            goTrimSpace (String.mk (rest.takeWhile (fun c => !(c == ':')))) }, .empty)) ∧
    (∀ (fsm : ImportFileFSM) (rest : List Char), fsm.state = .DML →
      processLineProtocol fsm (ImportTokenRetentionPolicy ++ String.mk rest) =
        ({ fsm with retentionPolicy :=
            goTrimSpace (String.mk (rest.takeWhile (fun c => !(c == ':')))) }, .empty)) ∧
    (∀ (fsm : ImportFileFSM) (data : String), fsm.state = .DML →
      goStartsWith data "#" = true →
      goStartsWith data ImportTokenDDL = false →
      goStartsWith data ImportTokenDML = false →
      goStartsWith data ImportTokenDatabase = false →
      goStartsWith data ImportTokenRetentionPolicy = false →
      processLineProtocol fsm data = (fsm, .empty)) ∧
    (∀ (fsm : ImportFileFSM) (data : String), fsm.state = .DML →
      goTrimSpace data = "" →
      goStartsWith data "#" = false →
      goStartsWith data ImportTokenDDL = false →
      goStartsWith data ImportTokenDML = false →
      processLineProtocol fsm data = (fsm, .empty)) ∧
    (∀ (fsm : ImportFileFSM) (data : String), fsm.state = .DML →
      ¬ goTrimSpace data = "" →
      goStartsWith data "#" = false →
      goStartsWith data ImportTokenDDL = false →
      goStartsWith data ImportTokenDML = false →
      processLineProtocol fsm data = (fsm, .lpData (goTrimSpace data))) := by
  have hashDB : goStartsWith ImportTokenDatabase "#" = true := rfl
  have hashRP : goStartsWith ImportTokenRetentionPolicy "#" = true := rfl
  refine ⟨?_, ?_, ?_, ?_, ?_⟩
  · intro fsm rest hst
    have h1 : goStartsWith (ImportTokenDatabase ++ String.mk rest) ImportTokenDDL = false := rfl
    have h2 : goStartsWith (ImportTokenDatabase ++ String.mk rest) ImportTokenDML = false := rfl
    have h3 : goStartsWith (ImportTokenDatabase ++ String.mk rest) ImportTokenDatabase = true :=
      listStartsWith_refl_append ImportTokenDatabase.data rest
    have hv : elem1 (goSplitColon (ImportTokenDatabase ++ String.mk rest)) =
        String.mk (rest.takeWhile (fun c => !(c == ':'))) :=
      elem1_goSplitColon dbTok0 rest (by decide)
    simp [processLineProtocol, h1, h2, h3, hst, hv]
  · intro fsm rest hst
    have h1 : goStartsWith (ImportTokenRetentionPolicy ++ String.mk rest) ImportTokenDDL = false := rfl
    have h2 : goStartsWith (ImportTokenRetentionPolicy ++ String.mk rest) ImportTokenDML = false := rfl
    have h3 : goStartsWith (ImportTokenRetentionPolicy ++ String.mk rest) ImportTokenDatabase = false := rfl
    have h4 : goStartsWith (ImportTokenRetentionPolicy ++ String.mk rest) ImportTokenRetentionPolicy = true :=
      listStartsWith_refl_append ImportTokenRetentionPolicy.data rest
    have hv : elem1 (goSplitColon (ImportTokenRetentionPolicy ++ String.mk rest)) =
        String.mk (rest.takeWhile (fun c => !(c == ':'))) :=
      elem1_goSplitColon rpTok0 rest (by decide)
    simp [processLineProtocol, h1, h2, h3, h4, hst, hv]
  · intro fsm data hst hHash hDDL hDML hDB hRP
    simp [processLineProtocol, hDDL, hDML, hst, hDB, hRP, hHash]
  · intro fsm data hst hBlank hHash hDDL hDML
    have hDB : goStartsWith data ImportTokenDatabase = false := by
      by_cases hx : goStartsWith data ImportTokenDatabase = true
      · exact absurd (startsWithHash_of_token data ImportTokenDatabase _ rfl hx)
          (by simp [hHash])
      · simpa using hx
    have hRP : goStartsWith data ImportTokenRetentionPolicy = false := by
      by_cases hx : goStartsWith data ImportTokenRetentionPolicy = true
      · exact absurd (startsWithHash_of_token data ImportTokenRetentionPolicy _ rfl hx)
          (by simp [hHash])
      · simpa using hx
    simp [processLineProtocol, hDDL, hDML, hst, hDB, hRP, hHash, hBlank]
  · intro fsm data hst hBlank hHash hDDL hDML
    have hDB : goStartsWith data ImportTokenDatabase = false := by
      by_cases hx : goStartsWith data ImportTokenDatabase = true
      · exact absurd (startsWithHash_of_token data ImportTokenDatabase _ rfl hx)
          (by simp [hHash])
      · simpa using hx
    have hRP : goStartsWith data ImportTokenRetentionPolicy = false := by
      by_cases hx : goStartsWith data ImportTokenRetentionPolicy = true
      · exact absurd (startsWithHash_of_token data ImportTokenRetentionPolicy _ rfl hx)
          (by simp [hHash])
      · simpa using hx
    simp [processLineProtocol, hDDL, hDML, hst, hDB, hRP, hHash, hBlank]

theorem C6_amended_witness :
    processLineProtocol fsmDML (ImportTokenDatabase ++ String.mk [' ', 'd', 'b', '0', '\n']) =
      ({ fsmDML with database := "db0" }, .empty) := by
  have h := C6_amended.1 fsmDML [' ', 'd', 'b', '0', '\n'] rfl
  exact h.trans (by decide)

/-! clearBuffer lemmas for the empty-flush claims. -/

theorem clearBuffer_empty (env : Env) (cfg : ImportConfig) (st : DriverState)
    (h1 : st.fsm.batchLPBuffer = []) (h2 : st.fsm.batchPointBuffer = []) :
    clearBuffer env cfg st = .ok st none := by
  simp [clearBuffer, h1, h2]

theorem clearBuffer_ok_empty (env : Env) (cfg : ImportConfig) (st st' : DriverState)
    (e : Option String) (h : clearBuffer env cfg st = .ok st' e) :
    st'.fsm.batchLPBuffer = [] ∧ st'.fsm.batchPointBuffer = [] := by
  by_cases hLP : st.fsm.batchLPBuffer = []
  · by_cases hPB : st.fsm.batchPointBuffer = []
    · simp [clearBuffer, hLP, hPB] at h
      obtain ⟨h1, h2⟩ := h
      exact h1 ▸ ⟨hLP, hPB⟩
    · simp [clearBuffer, hLP, hPB] at h
      repeat' split at h
      all_goals
        first
          | exact ClearResult.noConfusion h
          | (injection h with h1 h2; subst h1;
             exact ⟨(by first | rfl | assumption), (by first | rfl | assumption)⟩)
          | (obtain ⟨h1, h2⟩ := h; subst h1;
             exact ⟨(by first | rfl | assumption), (by first | rfl | assumption)⟩)
  · by_cases hPB : st.fsm.batchPointBuffer = []
    · simp [clearBuffer, hLP, hPB] at h
      repeat' split at h
      all_goals
        first
          | exact ClearResult.noConfusion h
          | (injection h with h1 h2; subst h1;
             exact ⟨(by first | rfl | assumption), (by first | rfl | assumption)⟩)
          | (obtain ⟨h1, h2⟩ := h; subst h1;
             exact ⟨(by first | rfl | assumption), (by first | rfl | assumption)⟩)
    · simp [clearBuffer, hLP, hPB] at h
      repeat' split at h
      all_goals
        first
          | exact ClearResult.noConfusion h
          | (injection h with h1 h2; subst h1;
             exact ⟨(by first | rfl | assumption), (by first | rfl | assumption)⟩)
          | (obtain ⟨h1, h2⟩ := h; subst h1;
             exact ⟨(by first | rfl | assumption), (by first | rfl | assumption)⟩)

/-- C9: clearing with both batch buffers empty performs no network call,
changes nothing and returns no error; and draining is idempotent: after
any successful clearBuffer, both buffers are empty, so a second
clearBuffer leaves the state untouched and returns no error. -/
theorem C9_flush_empty_idempotent (env : Env) (cfg : ImportConfig) (st : DriverState) :
    (st.fsm.batchLPBuffer = [] → st.fsm.batchPointBuffer = [] →
      clearBuffer env cfg st = .ok st none) ∧
    (∀ st' e, clearBuffer env cfg st = .ok st' e →
      clearBuffer env cfg st' = .ok st' none) := by
  constructor
  · exact fun h1 h2 => clearBuffer_empty env cfg st h1 h2
  · intro st' e h
    obtain ⟨h1, h2⟩ := clearBuffer_ok_empty env cfg st st' e h
    exact clearBuffer_empty env cfg st' h1 h2

theorem C9_flush_empty_idempotent_witness :
    clearBuffer envOK cfgBase initDriver = ClearResult.ok initDriver none :=
  (C9_flush_empty_idempotent envOK cfgBase initDriver).1 rfl rfl

/-! Map and header-scan lemmas for the field resolver. -/

theorem mapGet_mapSet_self {α : Type} (k : String) (v d : α) :
    ∀ m, mapGet (mapSet m k v) k d = v := by
  intro m
  induction m with
  | nil => simp [mapSet, mapGet]
  | cons kv rest ih =>
    obtain ⟨k', v'⟩ := kv
    by_cases h : (k' == k) = true
    · simp [mapSet, mapGet, h]
    · simp [mapSet, mapGet, h, ih]

theorem mapGet_mapSet_ne {α : Type} (k k₂ : String) (v d : α) :
    ∀ m, k₂ ≠ k → mapGet (mapSet m k v) k₂ d = mapGet m k₂ d := by
  intro m hne
  have hk2 : (k == k₂) = false := by
    simp only [beq_eq_false_iff_ne, ne_eq]
    exact fun hh => hne hh.symm
  induction m with
  | nil => simp [mapSet, mapGet, hk2]
  | cons kv rest ih =>
    obtain ⟨k', v'⟩ := kv
    by_cases h : (k' == k) = true
    · have hk : k' = k := by simpa [beq_iff_eq] using h
      subst hk
      simp [mapSet, mapGet, h, hk2]
    · by_cases h2 : (k' == k₂) = true
      · simp [mapSet, mapGet, h, h2]
      · simp [mapSet, mapGet, h, h2, ih]

theorem initPosMap_get_not_mem (t : String) (d : FieldPos) :
    ∀ (names : List String) (m : List (String × FieldPos)), t ∉ names →
      mapGet (initPosMap names m) t d = mapGet m t d := by
  intro names
  induction names with
  | nil => intro m _; rfl
  | cons n rest ih =>
    intro m h
    have hn : t ≠ n := fun hh => h (List.mem_cons.mpr (Or.inl hh))
    have hr : t ∉ rest := fun hm => h (List.mem_cons.mpr (Or.inr hm))
    simp only [initPosMap]
    rw [ih (mapSet m n ⟨"", 0⟩) hr]
    exact mapGet_mapSet_ne n t ⟨"", 0⟩ d m hn

theorem initPosMap_get_mem (t : String) (d : FieldPos) :
    ∀ (names : List String) (m : List (String × FieldPos)), t ∈ names →
      mapGet (initPosMap names m) t d = ⟨"", 0⟩ := by
  intro names
  induction names with
  | nil => intro m h; cases h
  | cons n rest ih =>
    intro m h
    by_cases hr : t ∈ rest
    · simp only [initPosMap]
      exact ih (mapSet m n ⟨"", 0⟩) hr
    · have hn : t = n := by
        rcases List.mem_cons.mp h with h1 | h2
        · exact h1
        · exact absurd h2 hr
      subst hn
      simp only [initPosMap]
      rw [initPosMap_get_not_mem t d rest (mapSet m t ⟨"", 0⟩) hr]
      exact mapGet_mapSet_self t ⟨"", 0⟩ d m

theorem scanHeaderAux_tagMap_get (cfg : ImportConfig) (t : String) (d : FieldPos) :
    ∀ (l : List String) (acc : ImportFileFSM) (idx : Nat), t ∉ l →
      mapGet (scanHeaderAux cfg acc idx l).tagMap t d = mapGet acc.tagMap t d := by
  intro l
  induction l with
  | nil => intro acc idx _; rfl
  | cons datum rest ih =>
    intro acc idx h
    have hdt : t ≠ datum := fun hh => h (List.mem_cons.mpr (Or.inl hh))
    have hr : t ∉ rest := fun hm => h (List.mem_cons.mpr (Or.inr hm))
    simp only [scanHeaderAux]
    rw [ih (stepHeader cfg acc idx datum) (idx + 1) hr]
    unfold stepHeader
    by_cases h1 : mapHasKey acc.tagMap datum = true
    · simp only [h1, if_true]
      exact mapGet_mapSet_ne datum t ⟨datum, idx⟩ d acc.tagMap hdt
    · by_cases h2 : mapHasKey acc.fieldMap datum = true
      · simp [h1, h2]
      · by_cases h3 : (cfg.timeField == datum) = true
        · simp [h1, h2, h3]
        · simp [h1, h2, h3]

theorem headerScanFSM_tagMap_missing (cfg : ImportConfig) (fsm : ImportFileFSM)
    (row : List String) (t : String) (htag : t ∈ cfg.tags) (hmiss : t ∉ row) :
    (mapGet (headerScanFSM cfg fsm row).tagMap t ⟨"", 0⟩).name = "" := by
  unfold headerScanFSM
  rw [scanHeaderAux_tagMap_get cfg t ⟨"", 0⟩ row _ 0 hmiss]
  rw [show ({ fsm with
      database := cfg.database,
      retentionPolicy := cfg.retentionPolicy,
      measurement := cfg.measurement,
      tagMap := initPosMap cfg.tags [],
      fieldMap := initPosMap cfg.fields [] } : ImportFileFSM).tagMap
    = initPosMap cfg.tags [] from rfl]
  rw [initPosMap_get_mem t ⟨"", 0⟩ cfg.tags [] htag]

theorem runCSVHeader_err (cfg : ImportConfig) (st : DriverState) (row : List String)
    (t : String) (htag : t ∈ cfg.tags) (hmiss : t ∉ row) :
    ∃ msg, (runCSVHeader cfg st row).2 = some msg ∧ isHeaderMissErr cfg msg := by
  have hname : (mapGet (headerScanFSM cfg st.fsm row).tagMap t ⟨"", 0⟩).name = "" :=
    headerScanFSM_tagMap_missing cfg st.fsm row t htag hmiss
  rcases hf : cfg.fields.find?
      (fun f => (mapGet (headerScanFSM cfg st.fsm row).fieldMap f ⟨"", 0⟩).name == "")
    with _ | f
  · have hex : (cfg.tags.find?
        (fun x => (mapGet (headerScanFSM cfg st.fsm row).tagMap x ⟨"", 0⟩).name == "")).isSome
          = true :=
      List.find?_isSome.mpr ⟨t, htag, by simp [hname]⟩
    obtain ⟨t₀, ht₀⟩ := Option.isSome_iff_exists.mp hex
    refine ⟨"tag name not in csv header " ++ t₀, ?_, ?_⟩
    · simp [runCSVHeader, hf, ht₀]
    · exact Or.inr (Or.inl ⟨t₀, List.mem_of_find?_eq_some ht₀, rfl⟩)
  · refine ⟨"field name not in csv header " ++ f, ?_, ?_⟩
    · simp [runCSVHeader, hf]
    · exact Or.inl ⟨f, List.mem_of_find?_eq_some hf, rfl⟩

/-- C1 counterexample: a CSV run whose configuration names tag "host2",
absent from the header "time,value", logs the configuration error naming
the tag but does not abort: the following data row is still processed and
buffered as a point. -/
theorem C1_counterexample :
    ("tag name not in csv header host2" ∈ (driverCSVRun envOK cfgC1 rowsC1).logs) ∧
    (driverCSVRun envOK cfgC1 rowsC1).st.fsm.batchPointBuffer.length = 1 := by decide

/-- C1 amended: when a configured tag name does not appear in the CSV
header row, the header action produces an error naming a missing
configured column, and it is the first message logged — before any data
row is processed; the run does not abort, however: the driver logs the
error and continues, handing every remaining row to the FSM. -/
theorem C1_amended (env : Env) (cfg : ImportConfig) (header : List String)
    (rest : List (List String)) (t : String)
    (hne : header ≠ []) (htag : t ∈ cfg.tags) (hmiss : t ∉ header) :
    ∃ msg, (driverCSVRun env cfg (header :: rest)).logs.head? = some msg ∧
      isHeaderMissErr cfg msg ∧
      (driverCSVRun env cfg (header :: rest)).processed = rest.length + 1 := by
  have hlen : ¬ header.length = 0 := fun hh => hne (List.length_eq_zero.mp hh)
  obtain ⟨msg, hmsg, hnames⟩ := runCSVHeader_err cfg
    ({ fsm := { state := ImportState.DML } } : DriverState) header t htag hmiss
  have hstep : csvStep env cfg initDriver header =
      runCSVHeader cfg ({ fsm := { state := ImportState.DML } } : DriverState) header := by
    simp [csvStep, processCSV, hlen, runAction, initDriver]
  refine ⟨msg, ?_, hnames, ?_⟩
  · simp [driverCSVRun, csvSteps, hstep, hmsg]
  · simp [driverCSVRun, csvSteps, csvSteps_processed]

theorem C1_amended_witness :
    ∃ msg, (driverCSVRun envOK cfgC1 rowsC1).logs.head? = some msg ∧
      isHeaderMissErr cfgC1 msg ∧
      (driverCSVRun envOK cfgC1 rowsC1).processed = 2 := by
  have h := C1_amended envOK cfgC1 ["time", "value"] [["100", "7"]] "host2"
    (by decide) (by decide) (by decide)
  simpa [rowsC1] using h

end GeminiImport
